import Mathlib

/-!
Verification of the ACTeroids tutorial pipeline.

The repository documents a deterministic S3 object-key convention for
pre-computed FITS light-curve files and ships a tutorial notebook that
(1) builds the key from three string parameters, (2) opens the remote
file through one of two library stacks, (3) extracts four fixed columns
from HDU index 1, and (4) renders an error-bar plot.  The definitions
below embed that pipeline.  Remote object storage and FITS decoding are
performed by third-party libraries, so they enter the model as
parameters: an `S3Store` mapping object keys to bytes and a
`FitsDecoder` mapping bytes to an HDU list.  The glue code of the
notebook is translated line by line.
-/

namespace Acteroids

/-- Raw bytes of a stored object. -/
abbrev Bytes := List Nat

/-- A FITS binary table (astropy FITS record): named columns of values. -/
abbrev Table := List (String × List Int)

/-- One header-data unit of a FITS file; only its tabular data matters here. -/
structure HDU where
  data : Table
deriving DecidableEq

/-- The HDU list returned by opening a FITS file. -/
abbrev HDUList := List HDU

/-- Contents of the S3 bucket: an object key either resolves to bytes or is
absent. -/
abbrev S3Store := String → Option Bytes

/-- The FITS decoding performed by the external astronomy library: bytes
either decode to an HDU list or fail. -/
abbrev FitsDecoder := Bytes → Option HDUList

/-- Keyword arguments forwarded to the fsspec layer by the astroquery-style
open call; the tutorial passes anon=True. -/
structure FsspecKwargs where
  anon : Bool
deriving DecidableEq

/-- State of the S3 client: the bucket contents plus a log of the GET
requests issued so far, each recorded with the anonymity flag it carried. -/
structure S3State where
  store : S3Store
  log : List (String × Bool)

/-- One GET request against the bucket: returns whatever the store holds at
the key and appends the request to the log. -/
def s3Get (st : S3State) (path : String) (anon : Bool) : Option Bytes × S3State :=
  (st.store path, { st with log := st.log ++ [(path, anon)] })

/-- Notebook cell: name = asteroid_lc_array_frequency (an f-string). -/
def name (asteroid array frequency : String) : String :=
  asteroid ++ "_lc_" ++ array ++ "_" ++ frequency

/-- Notebook cell: the object key, s3://cornell-acteroids/ + name + .fits -/
def s3_path (asteroid array frequency : String) : String :=
  "s3://cornell-acteroids/" ++ name asteroid array frequency ++ ".fits"

/-- Parameter cell of src/Notebooks/Tutorial/Tutorial.ipynb. -/
def tutorial_asteroid : String := "Erminia"

/-- Parameter cell of src/Notebooks/Tutorial/Tutorial.ipynb. -/
def tutorial_array : String := "pa4"

/-- Parameter cell of src/Notebooks/Tutorial/Tutorial.ipynb. -/
def tutorial_frequency : String := "150"

/-- Parameter cell of the second copy of the tutorial (src/unnamed/part_001). -/
def part001_asteroid : String := "Erminia"

/-- Parameter cell of the second copy of the tutorial (src/unnamed/part_001). -/
def part001_array : String := "pa6"

/-- Parameter cell of the second copy of the tutorial (src/unnamed/part_001). -/
def part001_frequency : String := "090"

/-- The kwargs literal the tutorial passes to fits.open: anon set to True. -/
def tutorial_fsspec_kwargs : FsspecKwargs := { anon := true }

/-- fits.open on a remote path with fsspec kwargs: astropy fetches the bytes
at the path through the fsspec layer (one GET, carrying the anon flag from
the kwargs) and decodes them as a FITS file. -/
def fitsOpenRemote (decode : FitsDecoder) (st : S3State) (path : String)
    (kw : FsspecKwargs) : Option HDUList × S3State :=
  let res := s3Get st path kw.anon
  (res.1.bind decode, res.2)

/-- hdul[i].data: index into the HDU list (failing when out of range) and
take the data member. -/
def hdulData (hdul : HDUList) (i : Nat) : Option Table :=
  (hdul.get? i).map HDU.data

/-- Extraction cell, astroquery variant: with fits.open(s3_path,
fsspec_kwargs anon=True) as hdul, data = hdul[1].data -/
def extract_astroquery (decode : FitsDecoder) (st : S3State) (path : String) :
    Option Table × S3State :=
  let res := fitsOpenRemote decode st path tutorial_fsspec_kwargs
  (res.1.bind (fun hdul => hdulData hdul 1), res.2)

/-- fsspec.open(path, mode, anon): one GET request against the bucket; the
mode string ("rb") selects binary reading and does not alter the bytes. -/
def fsspecOpen (st : S3State) (path : String) (mode : String) (anon : Bool) :
    Option Bytes × S3State :=
  let _ := mode
  s3Get st path anon

/-- fits.open on an already-open file object: decode its bytes. -/
def fitsOpenFileobj (decode : FitsDecoder) (fileobj : Bytes) : Option HDUList :=
  decode fileobj

/-- Extraction cell, direct fsspec variant: with fsspec.open(s3_path, rb,
anon=True) as fileobj, with fits.open(fileobj) as hdul, data = hdul[1].data -/
def extract_fsspec (decode : FitsDecoder) (st : S3State) (path : String) :
    Option Table × S3State :=
  let res := fsspecOpen st path "rb" true
  (res.1.bind (fun fileobj =>
    (fitsOpenFileobj decode fileobj).bind (fun hdul => hdulData hdul 1)), res.2)

/-- data[colName] on a FITS record: look up a column by name; a missing
column is a lookup error. -/
def getCol (data : Table) (colName : String) : Option (List Int) :=
  (data.find? (fun c => c.1 == colName)).map (fun c => c.2)

/-- The four variables bound by the column-extraction cell. -/
structure Columns where
  times : List Int
  flux : List Int
  error : List Int
  weight : List Int
deriving DecidableEq

/-- Column-extraction cell: times = data[Time], flux = data[Flux],
error = data[FluxUncertainty], weight = data[Weight]. -/
def extract_columns (data : Table) : Option Columns :=
  (getCol data "Time").bind fun times =>
  (getCol data "Flux").bind fun flux =>
  (getCol data "FluxUncertainty").bind fun error =>
  (getCol data "Weight").map fun weight =>
  { times := times, flux := flux, error := error, weight := weight }

/-- The matplotlib calls the plotting cell can make, with their arguments. -/
inductive PlotCmd
  | errorbar (x y yerr : List Int) (fmt : String)
  | tick_params (direction : String)
  | title (t : String)
  | xlabel (l : String)
  | ylabel (l : String)
  | savefig (fname : String)
  | showPlot
deriving DecidableEq

/-- Plotting cell, as the sequence of matplotlib calls it makes:
errorbar(times, flux, yerr=error, fmt=o), tick_params(direction=in),
title formatted from the asteroid variable, axis labels, savefig to the
literal file name Erminia_lcurve.pdf, show. -/
def plot_cell (asteroid : String) (times flux error : List Int) : List PlotCmd :=
  [ PlotCmd.errorbar times flux error "o"
  , PlotCmd.tick_params "in"
  , PlotCmd.title ("Light curve of " ++ asteroid)
  , PlotCmd.xlabel "Time (Unix)"
  , PlotCmd.ylabel "Flux (mJy)"
  , PlotCmd.savefig "Erminia_lcurve.pdf"
  , PlotCmd.showPlot ]

/-- Whether a plot command is the errorbar call. -/
def isErrorbar : PlotCmd → Bool
  | PlotCmd.errorbar _ _ _ _ => true
  | _ => false

/-- Whether a plot command is the savefig call. -/
def isSavefig : PlotCmd → Bool
  | PlotCmd.savefig _ => true
  | _ => false

/-- The whole notebook run: build the key from the three parameters, open
and extract (astroquery variant), pull the four columns, and plot.  The
result is the list of plot calls (none when any library call failed) paired
with the final S3 client state. -/
def run_tutorial (decode : FitsDecoder) (st : S3State)
    (asteroid array frequency : String) : Option (List PlotCmd) × S3State :=
  let path := s3_path asteroid array frequency
  let res := extract_astroquery decode st path
  (res.1.bind fun data =>
    (extract_columns data).map fun cols =>
      plot_cell asteroid cols.times cols.flux cols.error, res.2)

end Acteroids

namespace Acteroids

/-- Helper: the column-extraction cell succeeds exactly when all four named
columns are present, and then binds each variable to its column. -/
theorem extract_columns_eq_some (data : Table) (cols : Columns) :
    extract_columns data = some cols ↔
      (getCol data "Time" = some cols.times ∧
       getCol data "Flux" = some cols.flux ∧
       getCol data "FluxUncertainty" = some cols.error ∧
       getCol data "Weight" = some cols.weight) := by
  simp only [extract_columns, Option.bind_eq_some, Option.map_eq_some']
  constructor
  · rintro ⟨t, ht, f, hf, u, hu, w, hw, rfl⟩
    exact ⟨ht, hf, hu, hw⟩
  · rintro ⟨ht, hf, hu, hw⟩
    cases cols
    exact ⟨_, ht, _, hf, _, hu, _, hw, rfl⟩

/-- Helper: the column-extraction cell depends only on the four named
columns of its input table. -/
theorem extract_columns_congr (d d' : Table)
    (h1 : getCol d "Time" = getCol d' "Time")
    (h2 : getCol d "Flux" = getCol d' "Flux")
    (h3 : getCol d "FluxUncertainty" = getCol d' "FluxUncertainty")
    (h4 : getCol d "Weight" = getCol d' "Weight") :
    extract_columns d = extract_columns d' := by
  unfold extract_columns
  rw [h1, h2, h3, h4]

/-- C1: the constructed object key is the concatenation of the bucket
prefix, the asteroid name, the literal lc infix, the array, the frequency
and the .fits suffix, matching the documented naming scheme. -/
theorem s3_path_naming_scheme (asteroid array frequency : String) :
    s3_path asteroid array frequency =
      "s3://cornell-acteroids/" ++ asteroid ++ "_lc_" ++ array ++ "_"
        ++ frequency ++ ".fits" := by
  simp [s3_path, name, String.append_assoc]

/-- C2: the two extraction variants assign the same data for the same path:
opening the S3 path directly through fits.open with anonymous fsspec kwargs
and opening it through fsspec.open followed by fits.open on the file object
produce the same value of data and the same request log. -/
theorem extract_variants_equivalent (decode : FitsDecoder) (st : S3State)
    (path : String) :
    extract_astroquery decode st path = extract_fsspec decode st path := by
  simp only [extract_astroquery, extract_fsspec, fitsOpenRemote, fsspecOpen,
    fitsOpenFileobj, s3Get, tutorial_fsspec_kwargs]
  cases st.store path <;> rfl

/-- C3: the extraction step indexes the table of HDU index 1 by exactly the
four column names Time, Flux, FluxUncertainty and Weight, binding them to
times, flux, error and weight respectively, and reads no other columns:
two tables agreeing on those four columns extract identically. -/
theorem extract_columns_reads_exactly_four (d d' : Table) (cols : Columns)
    (h1 : getCol d "Time" = getCol d' "Time")
    (h2 : getCol d "Flux" = getCol d' "Flux")
    (h3 : getCol d "FluxUncertainty" = getCol d' "FluxUncertainty")
    (h4 : getCol d "Weight" = getCol d' "Weight") :
    (extract_columns d = some cols ↔
      (getCol d "Time" = some cols.times ∧
       getCol d "Flux" = some cols.flux ∧
       getCol d "FluxUncertainty" = some cols.error ∧
       getCol d "Weight" = some cols.weight)) ∧
    extract_columns d = extract_columns d' :=
  ⟨extract_columns_eq_some d cols, extract_columns_congr d d' h1 h2 h3 h4⟩

/-- Sample table used to instantiate theorems at concrete inputs. -/
def sampleTable : Table :=
  [("Time", [1, 2]), ("Flux", [10, 20]),
   ("FluxUncertainty", [3, 4]), ("Weight", [5, 6])]

/-- sampleTable with an extra column the extraction step never reads. -/
def sampleTableJunk : Table := sampleTable ++ [("Junk", [7])]

/-- sampleTable with a different Weight column only. -/
def sampleTableW : Table :=
  [("Time", [1, 2]), ("Flux", [10, 20]),
   ("FluxUncertainty", [3, 4]), ("Weight", [99, 100])]

/-- A store holding one object, and a decoder yielding sampleTable at HDU
index 1. -/
def sampleStore : S3Store := fun _ => some [0]

/-- Concrete decoder: every byte string decodes to a primary HDU and a
table HDU holding sampleTable. -/
def sampleDecoder : FitsDecoder :=
  fun _ => some [{ data := [] }, { data := sampleTable }]

/-- Initial S3 client state over sampleStore with an empty request log. -/
def sampleState : S3State := { store := sampleStore, log := [] }

/-- Witness for C3 at concrete tables: adding a column the cell never reads
does not change the extraction, and the four bindings are as stated. -/
theorem extract_columns_reads_exactly_four_witness :
    extract_columns sampleTable = extract_columns sampleTableJunk ∧
    extract_columns sampleTable = some ⟨[1, 2], [10, 20], [3, 4], [5, 6]⟩ := by
  have h := extract_columns_reads_exactly_four sampleTable sampleTableJunk
    ⟨[1, 2], [10, 20], [3, 4], [5, 6]⟩
    (by decide) (by decide) (by decide) (by decide)
  exact ⟨h.2, h.1.2 ⟨by decide, by decide, by decide, by decide⟩⟩

/-- C4: the pipeline catches no error and retries nothing: one run issues
exactly one GET request for the constructed key, and its result is the
failure value precisely when some underlying call (object fetch, FITS
decode, HDU indexing, column lookup) fails. -/
theorem run_tutorial_failure_propagation (decode : FitsDecoder) (st : S3State)
    (asteroid array frequency : String) :
    (run_tutorial decode st asteroid array frequency).2.log
        = st.log ++ [(s3_path asteroid array frequency, true)] ∧
    ((run_tutorial decode st asteroid array frequency).1 = none ↔
      ¬ ∃ b hdul data cols,
          st.store (s3_path asteroid array frequency) = some b ∧
          decode b = some hdul ∧ hdulData hdul 1 = some data ∧
          extract_columns data = some cols) := by
  constructor
  · rfl
  · simp only [run_tutorial, extract_astroquery, fitsOpenRemote, s3Get,
      tutorial_fsspec_kwargs]
    cases hb : st.store (s3_path asteroid array frequency) with
    | none => simp
    | some b =>
      cases hd : decode b with
      | none => simp [hd]
      | some hdul =>
        cases hh : hdulData hdul 1 with
        | none => simp [hd, hh]
        | some data =>
          cases hc : extract_columns data with
          | none => simp [hd, hh, hc]
          | some cols => simp [hd, hh, hc]

/-- C5: the plotting step receives the extracted Time column as x-values,
the extracted Flux column as y-values and the extracted FluxUncertainty
column as error bars, and its single errorbar call uses format o. -/
theorem plot_uses_time_flux_error (decode : FitsDecoder) (st : S3State)
    (asteroid array frequency : String) (data : Table) (cols : Columns)
    (hdata : (extract_astroquery decode st
        (s3_path asteroid array frequency)).1 = some data)
    (hcols : extract_columns data = some cols) :
    getCol data "Time" = some cols.times ∧
    getCol data "Flux" = some cols.flux ∧
    getCol data "FluxUncertainty" = some cols.error ∧
    (run_tutorial decode st asteroid array frequency).1
      = some (plot_cell asteroid cols.times cols.flux cols.error) ∧
    (plot_cell asteroid cols.times cols.flux cols.error).filter isErrorbar
      = [PlotCmd.errorbar cols.times cols.flux cols.error "o"] := by
  obtain ⟨ht, hf, hu, hw⟩ := (extract_columns_eq_some data cols).1 hcols
  refine ⟨ht, hf, hu, ?_, rfl⟩
  simp [run_tutorial, hdata, hcols]

/-- Witness for C5 at a concrete store and decoder. -/
theorem plot_uses_time_flux_error_witness :
    (run_tutorial sampleDecoder sampleState "Erminia" "pa6" "090").1
      = some (plot_cell "Erminia" [1, 2] [10, 20] [3, 4]) := by
  have h := plot_uses_time_flux_error sampleDecoder sampleState
    "Erminia" "pa6" "090" sampleTable ⟨[1, 2], [10, 20], [3, 4], [5, 6]⟩
    (by decide) (by decide)
  exact h.2.2.2.1

/-- C6: access is always anonymous: the astroquery variant forwards its
kwargs with anon set to true and the fsspec variant passes anon set to
true, so the single request either variant issues is logged as anonymous;
no credential parameter exists in the model. -/
theorem access_always_anonymous (decode : FitsDecoder) (st : S3State)
    (path : String) :
    tutorial_fsspec_kwargs.anon = true ∧
    (extract_astroquery decode st path).2.log = st.log ++ [(path, true)] ∧
    (extract_fsspec decode st path).2.log = st.log ++ [(path, true)] :=
  ⟨rfl, rfl, rfl⟩

/-- C7: key construction is deterministic: equal asteroid, array and
frequency inputs yield equal object keys. -/
theorem s3_path_deterministic (a₁ ar₁ f₁ a₂ ar₂ f₂ : String)
    (ha : a₁ = a₂) (har : ar₁ = ar₂) (hf : f₁ = f₂) :
    s3_path a₁ ar₁ f₁ = s3_path a₂ ar₂ f₂ := by
  rw [ha, har, hf]

/-- Witness for C7 at concrete inputs. -/
theorem s3_path_deterministic_witness :
    s3_path "Vesta" "pa4" "220" = s3_path "Vesta" "pa4" "220" :=
  s3_path_deterministic "Vesta" "pa4" "220" "Vesta" "pa4" "220" rfl rfl rfl

/-- C8: the parameter cell of Tutorial.ipynb sets Erminia, pa4, 150, so its
example key is Erminia_lc_pa4_150.fits, not the Erminia_lc_pa6_090.fits
announced by the surrounding markdown; the second copy of the tutorial
(part_001) sets Erminia, pa6, 090 and does yield the announced key. -/
theorem tutorial_example_path_value :
    s3_path tutorial_asteroid tutorial_array tutorial_frequency
        = "s3://cornell-acteroids/Erminia_lc_pa4_150.fits" ∧
    s3_path part001_asteroid part001_array part001_frequency
        = "s3://cornell-acteroids/Erminia_lc_pa6_090.fits" ∧
    s3_path tutorial_asteroid tutorial_array tutorial_frequency
        ≠ "s3://cornell-acteroids/Erminia_lc_pa6_090.fits" := by
  refine ⟨rfl, rfl, ?_⟩
  decide

/-- C9: the plot is independent of the Weight column: two tables that agree
on Time, Flux and FluxUncertainty and both extract successfully give every
plotting call identical arguments, whatever their Weight columns. -/
theorem plot_independent_of_weight (d d' : Table) (cols cols' : Columns)
    (h : extract_columns d = some cols)
    (h' : extract_columns d' = some cols')
    (h1 : getCol d "Time" = getCol d' "Time")
    (h2 : getCol d "Flux" = getCol d' "Flux")
    (h3 : getCol d "FluxUncertainty" = getCol d' "FluxUncertainty") :
    ∀ asteroid, plot_cell asteroid cols.times cols.flux cols.error
        = plot_cell asteroid cols'.times cols'.flux cols'.error := by
  obtain ⟨ht, hf, hu, _⟩ := (extract_columns_eq_some d cols).1 h
  obtain ⟨ht', hf', hu', _⟩ := (extract_columns_eq_some d' cols').1 h'
  have et : cols.times = cols'.times :=
    Option.some_injective _ (ht ▸ ht' ▸ h1 ▸ rfl)
  have ef : cols.flux = cols'.flux :=
    Option.some_injective _ (hf ▸ hf' ▸ h2 ▸ rfl)
  have eu : cols.error = cols'.error :=
    Option.some_injective _ (hu ▸ hu' ▸ h3 ▸ rfl)
  intro asteroid
  rw [et, ef, eu]

/-- Witness for C9: two concrete tables differing only in Weight lead to
the same plotting calls. -/
theorem plot_independent_of_weight_witness :
    plot_cell "Erminia" [1, 2] [10, 20] [3, 4]
      = plot_cell "Erminia" [1, 2] [10, 20] [3, 4] := by
  have h := plot_independent_of_weight sampleTable sampleTableW
    ⟨[1, 2], [10, 20], [3, 4], [5, 6]⟩ ⟨[1, 2], [10, 20], [3, 4], [99, 100]⟩
    (by decide) (by decide) (by decide) (by decide) (by decide)
  exact h "Erminia"

/-- C10: for every asteroid (and every data), the figure is saved to the
constant file name Erminia_lcurve.pdf, while the title is formatted from
the asteroid variable. -/
theorem savefig_constant (asteroid : String) (times flux error : List Int) :
    (plot_cell asteroid times flux error).filter isSavefig
        = [PlotCmd.savefig "Erminia_lcurve.pdf"] ∧
    PlotCmd.title ("Light curve of " ++ asteroid)
        ∈ plot_cell asteroid times flux error := by
  exact ⟨rfl, by simp [plot_cell]⟩

end Acteroids
